import Mathlib

/-!
Shallow embedding of the turn-taking and interruptible-playback coordinator of
the RealtimeSTT personal-assistant repository.

Embedded sources:
- `src/personal_assistant/interruptible_tts_wrapper.py`
  (`InterruptibleTTSWrapper`, `EnhancedAssistantTTSWrapper`)
- `src/personal_assistant/assistant_server_interruptible.py`
  (`generate_llm_response`, the `recorder_thread` response cycle)
- `src/personal_assistant/enhanced_assistant_server.py` (`TurnDetector`)

External collaborators (Edge TTS synthesis, PyAudio device, the LLM client,
the speech recorder) are modelled as opaque parameters or outcome values, as
the specification treats them as black boxes. Callback invocations
(`on_speech_start`, `on_speech_end`, `on_speech_interrupted`, websocket
broadcasts) are modelled as emitted event lists. Python thread interleavings
are modelled by explicit external-interrupt schedules (`WorkerEnv`).
-/

namespace RealtimeSTT

/-- The `InterruptReason` enum of `interruptible_tts_wrapper.py`. -/
inductive InterruptReason where
  | manual
  | vad_detected
  | wake_word
  | new_message
  | shutdown
  deriving DecidableEq, Repr

/-- The `AudioTask` dataclass: text, task id, priority, metadata. -/
structure AudioTask where
  text : String
  task_id : String
  priority : Int
  metadata : List (String × String)
  deriving DecidableEq, Repr

/-- Callback invocations of the wrapper, modelled as events. -/
inductive TTSEvent where
  | speech_start
  | speech_end
  | speech_interrupted (reason : InterruptReason)
  deriving DecidableEq, Repr

/-- State of an `InterruptibleTTSWrapper` instance.

`audio_queue` embeds the FIFO `queue.Queue()` of the source; a `none` entry is
the shutdown sentinel (`self.audio_queue.put(None)`).  `stream` models the
PyAudio handle: `none` = never opened, `some true` = open,
`some false` = handle retained but closed. -/
structure TTSState where
  is_speaking : Bool
  should_stop : Bool
  audio_queue : List (Option AudioTask)
  current_task : Option AudioTask
  stream : Option Bool
  pyaudio_alive : Bool
  deriving DecidableEq, Repr

/-- Wrapper state right after `__init__`. -/
def initState : TTSState :=
  { is_speaking := false
    should_stop := false
    audio_queue := []
    current_task := none
    stream := none
    pyaudio_alive := true }

/-- `InterruptibleTTSWrapper.interrupt`: if speaking, set the stop flag and
fire `on_speech_interrupted(reason)`; otherwise do nothing. -/
def interrupt (reason : InterruptReason) (s : TTSState) :
    TTSState × List TTSEvent :=
  if s.is_speaking then
    ({ s with should_stop := true }, [TTSEvent.speech_interrupted reason])
  else
    (s, [])

/-- Task-id resolution in `speak`: `if not task_id: task_id = str(uuid.uuid4())`.
Python treats both `None` and the empty string as absent; `fresh_id` stands for
the externally generated UUID. -/
def resolve_task_id (given_id : Option String) (fresh_id : String) : String :=
  match given_id with
  | some tid => if tid = "" then fresh_id else tid
  | none => fresh_id

/-- `InterruptibleTTSWrapper.speak`: build the task, interrupt the current
playback when `is_speaking` and the current task exists and the new priority is
strictly greater, then unconditionally append the task to the FIFO queue and
return its id. No validation of `text` is performed. -/
def speak (text : String) (given_id : Option String) (fresh_id : String)
    (priority : Int) (metadata : List (String × String)) (s : TTSState) :
    TTSState × List TTSEvent × String :=
  let task_id := resolve_task_id given_id fresh_id
  let task : AudioTask :=
    { text := text, task_id := task_id, priority := priority, metadata := metadata }
  let step : TTSState × List TTSEvent :=
    if s.is_speaking then
      match s.current_task with
      | some cur =>
          if priority > cur.priority then interrupt InterruptReason.new_message s
          else (s, [])
      | none => (s, [])
    else (s, [])
  ({ step.1 with audio_queue := step.1.audio_queue ++ [some task] },
   step.2, task_id)

/-- `InterruptibleTTSWrapper.clear_queue`: drain every pending entry. -/
def clear_queue (s : TTSState) : TTSState :=
  { s with audio_queue := [] }

/-- `InterruptibleTTSWrapper.shutdown`: interrupt with reason `shutdown`,
clear the queue, push the `None` sentinel, close the stream if one was ever
opened, and terminate PyAudio. -/
def shutdown (s : TTSState) : TTSState × List TTSEvent :=
  let step := interrupt InterruptReason.shutdown s
  let s1 := clear_queue step.1
  let s2 := { s1 with audio_queue := s1.audio_queue ++ [none] }
  let s3 := { s2 with
    stream := match s2.stream with
      | some _ => some false
      | none => none }
  ({ s3 with pyaudio_alive := false }, step.2)

/-- The VAD callback installed by
`EnhancedAssistantTTSWrapper._setup_vad_callbacks`: on voice-activity start it
calls `interrupt(InterruptReason.VAD_DETECTED)` unconditionally (the original
recorder callback, chained afterwards, is external). -/
def on_vad_interrupt (s : TTSState) : TTSState × List TTSEvent :=
  interrupt InterruptReason.vad_detected s

/-- Number of slices written by `_play_audio`: the source iterates
`range(0, len(audio_data), chunk_size * 2)` with `chunk_size = 1024`,
i.e. 2048-byte slices. -/
def numChunks (dataLen : Nat) : Nat :=
  (dataLen + 2047) / 2048

/-- Scheduling environment for one iteration of the worker loop.

`gen` is the external Edge-TTS synthesis for `_generate_audio`: `some bytes`
when synthesis succeeds, `none` when it raises (the source catches the
exception and returns `None`).  `stopDuringGen` records whether a concurrent
`interrupt` call sets the stop flag while synthesis streams (the source then
returns `None` from `_generate_audio`).  `stopAtChunk = some i` records that
the stop flag becomes set by the check preceding slice `i` of playback. -/
structure WorkerEnv where
  gen : AudioTask → Option (List Nat)
  stopDuringGen : Bool
  stopAtChunk : Option Nat

/-- Whether `_play_audio` returns `True` (ran to completion): the stop flag is
never set before slice `i < numChunks`. -/
def play_completed (dataLen : Nat) (stopAtChunk : Option Nat) : Bool :=
  match stopAtChunk with
  | none => true
  | some i => decide (numChunks dataLen ≤ i)

/-- One iteration of `InterruptibleTTSWrapper._worker_loop` on a dequeued task:
record the current task, raise `is_speaking`, clear the stop flag, invoke
`on_speech_start`, run synthesis; if it yields data and the stop flag is still
clear, play in slices and invoke `on_speech_end` exactly when playback
completed; finally lower `is_speaking` and drop `current_task`. -/
def workerStep (env : WorkerEnv) (task : AudioTask) (s : TTSState) :
    TTSState × List TTSEvent :=
  let s1 : TTSState :=
    { s with current_task := some task, is_speaking := true, should_stop := false }
  let s2 : TTSState :=
    if env.stopDuringGen then { s1 with should_stop := true } else s1
  let audio : Option (List Nat) :=
    if env.stopDuringGen then none else env.gen task
  match audio with
  | none =>
      ({ s2 with is_speaking := false, current_task := none },
       [TTSEvent.speech_start])
  | some data =>
      if data.length = 0 then
        ({ s2 with is_speaking := false, current_task := none },
         [TTSEvent.speech_start])
      else
        let s3 : TTSState :=
          { s2 with stream := match s2.stream with | none => some true | some b => some b }
        let stopped : Bool :=
          match env.stopAtChunk with
          | some i => decide (i < numChunks data.length)
          | none => false
        let s4 : TTSState :=
          { s3 with should_stop := stopped, is_speaking := false, current_task := none }
        (s4,
         if play_completed data.length env.stopAtChunk then
           [TTSEvent.speech_start, TTSEvent.speech_end]
         else
           [TTSEvent.speech_start])

/-- Run of the worker loop over the pending FIFO, one scheduling environment
per iteration; the loop breaks on the `None` sentinel. Returns the final
state, the tasks processed in dequeue order, and the emitted events. -/
def workerRun (envs : Nat → WorkerEnv) :
    List (Option AudioTask) → TTSState → TTSState × List AudioTask × List TTSEvent
  | [], s => (s, [], [])
  | none :: _, s => (s, [], [])
  | some t :: rest, s =>
      let step := workerStep (envs 0) t s
      let restRun := workerRun (fun n => envs (n + 1)) rest step.1
      (restRun.1, t :: restRun.2.1, step.2 ++ restRun.2.2)

/-- Order in which `audio_queue.get()` yields tasks to the worker (FIFO, up to
the shutdown sentinel). -/
def dequeueOrder : List (Option AudioTask) → List AudioTask
  | [] => []
  | none :: _ => []
  | some t :: rest => t :: dequeueOrder rest

/-- A batch of `speak` calls `(text, id, priority)`, each supplying its own id
(also used as the fallback fresh id). -/
def mkTask (r : String × String × Int) : AudioTask :=
  { text := r.1, task_id := r.2.1, priority := r.2.2, metadata := [] }

/-- Fold a list of speak requests over the wrapper state. -/
def speakAll (reqs : List (String × String × Int)) (s : TTSState) : TTSState :=
  reqs.foldl (fun st r => (speak r.1 (some r.2.1) r.2.1 r.2.2 [] st).1) s

/-! Embedding of the response cycle of
`src/personal_assistant/assistant_server_interruptible.py`. -/

/-- Outcome of the external Anthropic client call inside
`generate_llm_response` (the try block around `client.messages.create`). -/
inductive LLMOutcome where
  | ok (reply : String)
  | fail (msg : String)
  deriving DecidableEq, Repr

/-- The fixed fallback string returned by the `except` branch of
`generate_llm_response`. -/
def llm_error_fallback : String :=
  "I\x27m sorry, I encountered an error processing your request."

/-- `generate_llm_response`: on success, return the reply and append both the
user and assistant turns to the conversation history; on failure, catch the
exception and return the fixed apology, leaving history unchanged. -/
def generate_llm_response (outcome : LLMOutcome)
    (history : List (String × String)) (user_text : String) :
    String × List (String × String) :=
  match outcome with
  | LLMOutcome.ok reply =>
      (reply, history ++ [("user", user_text), ("assistant", reply)])
  | LLMOutcome.fail _ =>
      (llm_error_fallback, history)

/-- Websocket broadcasts emitted from the recorder thread; `error` is listed
in the message taxonomy but the source never emits it. -/
inductive ServerEvent where
  | fullSentence (text : String)
  | assistant_processing
  | assistant_response (text : String)
  | error (msg : String)
  deriving DecidableEq, Repr

/-- Coordinator state touched by one iteration of `recorder_thread`. -/
structure CoordinatorState where
  conversation_mode : Bool
  conversation_history : List (String × String)
  tts : TTSState
  deriving Repr

/-- One iteration of the `recorder_thread` loop on a finalized sentence: skip
empty sentences; broadcast the transcription; in assistant mode clear the
pending queue, broadcast a processing indicator, run `generate_llm_response`,
broadcast the response text, and `speak` it with priority 1. Returns the new
state, the broadcasts, and the TTS events raised by `speak`. -/
def recorder_step (outcome : LLMOutcome) (full_sentence : String)
    (fresh_id : String) (c : CoordinatorState) :
    CoordinatorState × List ServerEvent × List TTSEvent :=
  if full_sentence = "" then
    (c, [], [])
  else if c.conversation_mode then
    let tts1 := clear_queue c.tts
    let gen := generate_llm_response outcome c.conversation_history full_sentence
    let spk := speak gen.1 none fresh_id 1 [] tts1
    ({ c with conversation_history := gen.2, tts := spk.1 },
     [ServerEvent.fullSentence full_sentence,
      ServerEvent.assistant_processing,
      ServerEvent.assistant_response gen.1],
     spk.2.1)
  else
    (c, [ServerEvent.fullSentence full_sentence], [])

/-! Embedding of `TurnDetector` from
`src/personal_assistant/enhanced_assistant_server.py`.  Timestamps
(`time.time()` values) are modelled as rationals passed in explicitly. -/

/-- The `conversation_pace` field values. -/
inductive Pace where
  | slow
  | normal
  | fast
  deriving DecidableEq, Repr

/-- State of a `TurnDetector` instance. -/
structure TurnDetector where
  last_speech_time : ℚ
  silence_threshold : ℚ
  min_speech_duration : ℚ
  is_user_speaking : Bool
  conversation_pace : Pace
  deriving DecidableEq, Repr

/-- `TurnDetector.__init__` at construction time `now`. -/
def initTurnDetector (now : ℚ) : TurnDetector :=
  { last_speech_time := now
    silence_threshold := 4/5
    min_speech_duration := 3/10
    is_user_speaking := false
    conversation_pace := Pace.normal }

/-- `TurnDetector.on_speech_start`, called at time `now`: raise
`is_user_speaking` and record `last_speech_time = time.time()`. -/
def TurnDetector.on_speech_start (td : TurnDetector) (now : ℚ) : TurnDetector :=
  { td with is_user_speaking := true, last_speech_time := now }

/-- `TurnDetector.on_speech_end`: lower `is_user_speaking`.  The source reads
no clock here and updates no timestamp. -/
def TurnDetector.on_speech_end (td : TurnDetector) : TurnDetector :=
  { td with is_user_speaking := false }

/-- The pace-scaled silence threshold computed inside `should_respond`
(fast: x0.7, slow: x1.3). -/
def TurnDetector.scaled_threshold (td : TurnDetector) : ℚ :=
  match td.conversation_pace with
  | Pace.fast => td.silence_threshold * (7/10)
  | Pace.slow => td.silence_threshold * (13/10)
  | Pace.normal => td.silence_threshold

/-- `TurnDetector.should_respond` evaluated at time `now`: not currently
speaking, and the silence since `last_speech_time` exceeds the scaled
threshold. -/
def TurnDetector.should_respond (td : TurnDetector) (now : ℚ) : Bool :=
  !td.is_user_speaking && decide (now - td.last_speech_time > td.scaled_threshold)

/-- `TurnDetector.update_pace`. -/
def TurnDetector.update_pace (td : TurnDetector) (response_time : ℚ) : TurnDetector :=
  if response_time < 1/2 then { td with conversation_pace := Pace.fast }
  else if response_time > 3/2 then { td with conversation_pace := Pace.slow }
  else { td with conversation_pace := Pace.normal }

/-- The `on_voice_activity_stop` operation as the specification words it
(spec 4.2): set `is_user_speaking` to false AND record the stop time as
`last_speech_end_time`.  Kept separate for comparison with the source's
`TurnDetector.on_speech_end`, which records nothing. -/
def on_speech_end_specVersion (td : TurnDetector) (now : ℚ) : TurnDetector :=
  { td with is_user_speaking := false, last_speech_time := now }

/-! Helper lemmas shared by several developments. -/

/-- A task id supplied both as the given id and the fresh fallback resolves to
itself. -/
theorem resolve_task_id_self (i : String) : resolve_task_id (some i) i = i := by
  show (if i = "" then i else i) = i
  split <;> rfl

/-- `speak` never removes queue entries: it appends exactly the new task. -/
theorem speak_queue_append (text : String) (gid : Option String) (fid : String)
    (p : Int) (m : List (String × String)) (s : TTSState) :
    (speak text gid fid p m s).1.audio_queue =
      s.audio_queue ++
        [some { text := text, task_id := resolve_task_id gid fid,
                priority := p, metadata := m }] := by
  obtain ⟨isp, stp, q, cur, str, pa⟩ := s
  cases isp <;> rcases cur with _ | c <;>
    simp [speak, interrupt] <;> split <;> simp

/-- `speak` leaves every state field other than `audio_queue` and
`should_stop` unchanged, and only ever raises `should_stop`. -/
theorem speak_is_speaking (text : String) (gid : Option String) (fid : String)
    (p : Int) (m : List (String × String)) (s : TTSState) :
    (speak text gid fid p m s).1.is_speaking = s.is_speaking := by
  obtain ⟨isp, stp, q, cur, str, pa⟩ := s
  cases isp <;> rcases cur with _ | c <;>
    simp [speak, interrupt] <;> split <;> simp

/-- Queue contents after a batch of `speak` calls: the prior queue followed by
the new tasks in arrival order. -/
theorem speakAll_queue (reqs : List (String × String × Int)) (s : TTSState) :
    (speakAll reqs s).audio_queue =
      s.audio_queue ++ reqs.map (fun r => some (mkTask r)) := by
  induction reqs generalizing s with
  | nil => simp [speakAll]
  | cons r rest ih =>
      have hstep := speak_queue_append r.1 (some r.2.1) r.2.1 r.2.2 [] s
      rw [resolve_task_id_self] at hstep
      simp only [speakAll, List.foldl_cons] at *
      rw [ih, hstep]
      simp [mkTask]

/-- The tasks processed by a worker run are exactly the FIFO dequeue order of
the queue it consumes. -/
theorem workerRun_processed (envs : Nat → WorkerEnv)
    (q : List (Option AudioTask)) (s : TTSState) :
    (workerRun envs q s).2.1 = dequeueOrder q := by
  induction q generalizing envs s with
  | nil => rfl
  | cons o rest ih =>
      rcases o with _ | t
      · rfl
      · simp [workerRun, dequeueOrder, ih]

/-- FIFO dequeue order of a sentinel-free queue is the task list itself. -/
theorem dequeueOrder_map_some (reqs : List (String × String × Int)) :
    dequeueOrder (reqs.map (fun r => some (mkTask r))) = reqs.map mkTask := by
  induction reqs with
  | nil => rfl
  | cons r rest ih => simp [dequeueOrder, ih]

/-- The pending queue right after `shutdown` holds exactly the sentinel. -/
theorem shutdown_queue (s : TTSState) : (shutdown s).1.audio_queue = [none] := by
  obtain ⟨isp, stp, q, cur, str, pa⟩ := s
  cases isp <;> rcases str with _ | b <;> simp [shutdown, interrupt, clear_queue]

/-! Claim theorems. -/

/-- C1 counterexample: enqueueing priorities [3,1,5,1] into a fresh wrapper
gives dequeue order [3,1,5,1] — the FIFO arrival order — and not the
[5,3,1,1] the claim states: the source stores tasks in a plain
`queue.Queue()`, which ignores priority. -/
theorem C1_counterexample :
    (dequeueOrder (speakAll
        [("a", "t1", 3), ("b", "t2", 1), ("c", "t3", 5), ("d", "t4", 1)]
        initState).audio_queue).map AudioTask.priority = [3, 1, 5, 1] ∧
    (dequeueOrder (speakAll
        [("a", "t1", 3), ("b", "t2", 1), ("c", "t3", 5), ("d", "t4", 1)]
        initState).audio_queue).map AudioTask.priority ≠ [5, 3, 1, 1] := by
  exact ⟨rfl, by decide⟩

/-- C1 (amended): the pending collection is a plain FIFO: for every sequence
of enqueue calls on a fresh wrapper, the worker dequeues the tasks in arrival
order, with priority playing no role in the ordering. -/
theorem C1_dequeue_is_arrival_order (reqs : List (String × String × Int))
    (envs : Nat → WorkerEnv) (s : TTSState) :
    (workerRun envs (speakAll reqs initState).audio_queue s).2.1 =
      reqs.map mkTask := by
  rw [workerRun_processed, speakAll_queue]
  simpa [initState] using dequeueOrder_map_some reqs

/-- C2: whenever a task is in flight (`is_speaking` with a current task of any
priority), the VAD-start callback interrupts: the stop flag is set and
`on_speech_interrupted(vad_detected)` fires, independently of the in-flight
task's priority. -/
theorem C2_vad_interrupts_any_priority (s : TTSState) (cur : AudioTask)
    (hspeak : s.is_speaking = true) (hcur : s.current_task = some cur) :
    (on_vad_interrupt s).1.should_stop = true ∧
    (on_vad_interrupt s).2 =
      [TTSEvent.speech_interrupted InterruptReason.vad_detected] := by
  simp [on_vad_interrupt, interrupt, hspeak]

/-- C2 witness: a state speaking a task of a huge priority value is
interrupted by the VAD callback. -/
theorem C2_witness :
    (on_vad_interrupt
      ⟨true, false, [], some ⟨"t", "c1", 9223372036854775807, []⟩,
       none, true⟩).1.should_stop = true ∧
    (on_vad_interrupt
      ⟨true, false, [], some ⟨"t", "c1", 9223372036854775807, []⟩,
       none, true⟩).2 =
      [TTSEvent.speech_interrupted InterruptReason.vad_detected] :=
  C2_vad_interrupts_any_priority _ _ rfl rfl

/-- C3: with a task in flight, `speak` raises the higher-priority interrupt
exactly when the new priority is strictly greater than the in-flight one; an
equal priority never interrupts. -/
theorem C3_preemption_strict (s : TTSState) (cur : AudioTask) (text : String)
    (gid : Option String) (fid : String) (p : Int) (m : List (String × String))
    (hspeak : s.is_speaking = true) (hcur : s.current_task = some cur) :
    ((speak text gid fid p m s).2.1 =
        [TTSEvent.speech_interrupted InterruptReason.new_message] ↔
      p > cur.priority) ∧
    (p = cur.priority → (speak text gid fid p m s).2.1 = []) := by
  by_cases hp : p > cur.priority
  · constructor
    · simp [speak, interrupt, hspeak, hcur, hp]
    · intro he
      exact absurd hp (by simp [he])
  · constructor
    · simp [speak, interrupt, hspeak, hcur, hp]
    · intro _
      simp [speak, interrupt, hspeak, hcur, hp]

/-- C3 witness: in-flight priority 5 — an enqueue at 6 interrupts, and the
equal-priority premise is discharged vacuously at 6 ≠ 5. -/
theorem C3_witness :
    ((speak "new" none "n1" 6 []
        ⟨true, false, [], some ⟨"cur", "c1", 5, []⟩, none, true⟩).2.1 =
        [TTSEvent.speech_interrupted InterruptReason.new_message] ↔
      (6 : Int) > 5) ∧
    ((6 : Int) = 5 →
      (speak "new" none "n1" 6 []
        ⟨true, false, [], some ⟨"cur", "c1", 5, []⟩, none, true⟩).2.1 = []) :=
  C3_preemption_strict ⟨true, false, [], some ⟨"cur", "c1", 5, []⟩, none, true⟩
    ⟨"cur", "c1", 5, []⟩ "new" none "n1" 6 [] rfl rfl

/-- C4 counterexample: for a task whose synthesis fails, the worker still
emits exactly `on_speech_start` — the source invokes the callback before
calling `_generate_audio`, so synthesis failure does not prevent it. -/
theorem C4_counterexample :
    (workerStep ⟨fun _ => none, false, none⟩
        ⟨"hello", "t1", 0, []⟩ initState).2 = [TTSEvent.speech_start] ∧
    TTSEvent.speech_start ∈
      (workerStep ⟨fun _ => none, false, none⟩
        ⟨"hello", "t1", 0, []⟩ initState).2 := by
  exact ⟨rfl, by decide⟩

/-- C4 (amended): `on_speech_start` is invoked for every dequeued task before
synthesis runs, including tasks whose synthesis fails; on failure the worker
skips playback and `on_speech_end`, returns to idle, and still processes the
next pending task; `on_speech_end` is emitted only when synthesis succeeded
with non-empty audio and playback ran to completion. -/
theorem C4_synthesis_failure (env : WorkerEnv) (task next : AudioTask)
    (s : TTSState) (hfail : env.gen task = none) :
    (workerStep env task s).2 = [TTSEvent.speech_start] ∧
    (workerStep env task s).1.is_speaking = false ∧
    (workerStep env task s).1.current_task = none ∧
    (workerRun (fun _ => env) [some task, some next] s).2.1 = [task, next] ∧
    (∀ e : WorkerEnv, ∀ t : AudioTask, ∀ st : TTSState,
      TTSEvent.speech_end ∈ (workerStep e t st).2 →
      ∃ data, e.gen t = some data ∧ e.stopDuringGen = false ∧
        data.length ≠ 0 ∧ play_completed data.length e.stopAtChunk = true) := by
  refine ⟨?_, ?_, ?_, ?_, ?_⟩
  · cases hg : env.stopDuringGen <;> simp [workerStep, hfail, hg]
  · cases hg : env.stopDuringGen <;> simp [workerStep, hfail, hg]
  · cases hg : env.stopDuringGen <;> simp [workerStep, hfail, hg]
  · rw [workerRun_processed]
    rfl
  · intro e t st hmem
    unfold workerStep at hmem
    rcases hg : e.stopDuringGen with _ | _ <;> rw [hg] at hmem <;> simp at hmem
    rcases hgen : e.gen t with _ | data <;> rw [hgen] at hmem <;> simp at hmem
    by_cases hnil : data = []
    · rw [hnil] at hmem
      simp at hmem
    · rw [if_neg hnil] at hmem
      by_cases hc : play_completed data.length e.stopAtChunk = true
      · refine ⟨data, rfl, rfl, ?_, hc⟩
        intro h0
        exact hnil (List.eq_nil_of_length_eq_zero h0)
      · rw [if_neg hc] at hmem
        simp at hmem

/-- C4 witness: a concrete always-failing synthesis environment on a fresh
state, with two concrete tasks. -/
theorem C4_witness :
    ((⟨fun _ => none, false, none⟩ : WorkerEnv).gen ⟨"a", "t1", 0, []⟩ = none) ∧
    ((workerStep ⟨fun _ => none, false, none⟩ ⟨"a", "t1", 0, []⟩
        initState).2 = [TTSEvent.speech_start] ∧
     (workerStep ⟨fun _ => none, false, none⟩ ⟨"a", "t1", 0, []⟩
        initState).1.is_speaking = false ∧
     (workerStep ⟨fun _ => none, false, none⟩ ⟨"a", "t1", 0, []⟩
        initState).1.current_task = none ∧
     (workerRun (fun _ => (⟨fun _ => none, false, none⟩ : WorkerEnv))
        [some ⟨"a", "t1", 0, []⟩, some ⟨"b", "t2", 0, []⟩]
        initState).2.1 = [⟨"a", "t1", 0, []⟩, ⟨"b", "t2", 0, []⟩] ∧
     (∀ e : WorkerEnv, ∀ t : AudioTask, ∀ st : TTSState,
       TTSEvent.speech_end ∈ (workerStep e t st).2 →
       ∃ data, e.gen t = some data ∧ e.stopDuringGen = false ∧
         data.length ≠ 0 ∧ play_completed data.length e.stopAtChunk = true)) :=
  ⟨rfl, C4_synthesis_failure ⟨fun _ => none, false, none⟩
    ⟨"a", "t1", 0, []⟩ ⟨"b", "t2", 0, []⟩ initState rfl⟩

/-- C5 counterexample: `speak` with empty text is not rejected — the empty
task enters the pending queue and its (generated) id is returned; the source
performs no validation and defines no InvalidTaskError. -/
theorem C5_counterexample :
    (speak "" none "fresh-1" 0 [] initState).1.audio_queue =
      [some ⟨"", "fresh-1", 0, []⟩] ∧
    (speak "" none "fresh-1" 0 [] initState).1.audio_queue ≠ [] ∧
    (speak "" none "fresh-1" 0 [] initState).2.2 = "fresh-1" := by
  exact ⟨rfl, by decide, rfl⟩

/-- C5 (amended): `speak` performs no validation at all: every text, empty
included, is accepted, the task is appended to the queue, and the resolved id
(the given one, or the generated one when absent or empty) is returned. -/
theorem C5_no_validation (text : String) (gid : Option String) (fid : String)
    (p : Int) (m : List (String × String)) (s : TTSState) :
    (speak text gid fid p m s).1.audio_queue =
      s.audio_queue ++
        [some { text := text, task_id := resolve_task_id gid fid,
                priority := p, metadata := m }] ∧
    (speak text gid fid p m s).2.2 = resolve_task_id gid fid :=
  ⟨speak_queue_append text gid fid p m s, rfl⟩

/-- C6: `shutdown` is idempotent on the wrapper state: a second call leaves
the state produced by the first call unchanged (queue again holds exactly the
sentinel, stream stays closed, PyAudio stays terminated). -/
theorem C6_shutdown_idempotent (s : TTSState) :
    (shutdown (shutdown s).1).1 = (shutdown s).1 := by
  obtain ⟨isp, stp, q, cur, str, pa⟩ := s
  cases isp <;> rcases str with _ | b <;>
    simp [shutdown, interrupt, clear_queue]

/-- C7 counterexample: after `shutdown()` has completed, a `speak` call still
appends its task to the pending collection — `speak` has no shutdown guard, so
the enqueue succeeds (the queue then holds the sentinel followed by the new
task). -/
theorem C7_counterexample :
    (speak "hi" none "t9" 0 [] (shutdown initState).1).1.audio_queue =
      [none, some ⟨"hi", "t9", 0, []⟩] ∧
    some (⟨"hi", "t9", 0, []⟩ : AudioTask) ∈
      (speak "hi" none "t9" 0 [] (shutdown initState).1).1.audio_queue := by
  exact ⟨rfl, by decide⟩

/-- C7 (amended): enqueue calls after `shutdown` still add their tasks to the
pending collection (there is no guard), but no such task is ever dequeued: the
shutdown sentinel precedes them, so the worker exits before reaching them. -/
theorem C7_enqueue_after_shutdown (s s2 : TTSState)
    (reqs : List (String × String × Int)) (envs : Nat → WorkerEnv) :
    (speakAll reqs (shutdown s).1).audio_queue =
      none :: reqs.map (fun r => some (mkTask r)) ∧
    (workerRun envs (speakAll reqs (shutdown s).1).audio_queue s2).2.1 = [] := by
  have hq : (speakAll reqs (shutdown s).1).audio_queue =
      none :: reqs.map (fun r => some (mkTask r)) := by
    rw [speakAll_queue, shutdown_queue]
    rfl
  refine ⟨hq, ?_⟩
  rw [workerRun_processed, hq]
  rfl

/-- C8 counterexample: with the generator failing, the recorder cycle
broadcasts a normal `assistant_response` carrying the fixed apology (no
`error` event) and enqueues that apology on the playback queue — one enqueue,
not zero. -/
theorem C8_counterexample :
    (recorder_step (LLMOutcome.fail "boom") "what time is it" "id-7"
        ⟨true, [], initState⟩).2.1 =
      [ServerEvent.fullSentence "what time is it",
       ServerEvent.assistant_processing,
       ServerEvent.assistant_response llm_error_fallback] ∧
    (recorder_step (LLMOutcome.fail "boom") "what time is it" "id-7"
        ⟨true, [], initState⟩).1.tts.audio_queue =
      [some ⟨llm_error_fallback, "id-7", 1, []⟩] ∧
    (recorder_step (LLMOutcome.fail "boom") "what time is it" "id-7"
        ⟨true, [], initState⟩).1.tts.audio_queue ≠ [] := by
  exact ⟨rfl, rfl, by decide⟩

/-- C8 (amended): for every generator failure on a non-empty sentence in
assistant mode, the coordinator broadcasts the transcript, a processing
indicator and an `assistant_response` holding the fixed apology string, leaves
the history unchanged, and enqueues exactly the apology at priority 1; it
never broadcasts an `error` event. -/
theorem C8_generator_failure_fallback (msg text fid : String)
    (hist : List (String × String)) (tts : TTSState) (ht : text ≠ "") :
    (recorder_step (LLMOutcome.fail msg) text fid
        ⟨true, hist, tts⟩).2.1 =
      [ServerEvent.fullSentence text, ServerEvent.assistant_processing,
       ServerEvent.assistant_response llm_error_fallback] ∧
    (recorder_step (LLMOutcome.fail msg) text fid
        ⟨true, hist, tts⟩).1.tts.audio_queue =
      [some ⟨llm_error_fallback, fid, 1, []⟩] ∧
    (recorder_step (LLMOutcome.fail msg) text fid
        ⟨true, hist, tts⟩).1.conversation_history = hist ∧
    (∀ m, ServerEvent.error m ∉
      (recorder_step (LLMOutcome.fail msg) text fid ⟨true, hist, tts⟩).2.1) := by
  have hq := speak_queue_append llm_error_fallback none fid 1 [] (clear_queue tts)
  refine ⟨?_, ?_, ?_, ?_⟩
  · simp [recorder_step, ht, generate_llm_response]
  · simp only [recorder_step, if_neg ht, if_pos rfl, generate_llm_response]
    simpa [clear_queue, resolve_task_id] using hq
  · simp [recorder_step, ht, generate_llm_response]
  · intro m
    simp [recorder_step, ht, generate_llm_response]

/-- C8 witness: concrete failing generator on a fresh coordinator. -/
theorem C8_witness :
    "hello" ≠ "" ∧
    ((recorder_step (LLMOutcome.fail "boom") "hello" "f1"
        ⟨true, [], initState⟩).2.1 =
      [ServerEvent.fullSentence "hello", ServerEvent.assistant_processing,
       ServerEvent.assistant_response llm_error_fallback] ∧
    (recorder_step (LLMOutcome.fail "boom") "hello" "f1"
        ⟨true, [], initState⟩).1.tts.audio_queue =
      [some ⟨llm_error_fallback, "f1", 1, []⟩] ∧
    (recorder_step (LLMOutcome.fail "boom") "hello" "f1"
        ⟨true, [], initState⟩).1.conversation_history = [] ∧
    (∀ m, ServerEvent.error m ∉
      (recorder_step (LLMOutcome.fail "boom") "hello" "f1"
        ⟨true, [], initState⟩).2.1)) :=
  ⟨by decide,
   C8_generator_failure_fallback "boom" "hello" "f1" [] initState (by decide)⟩

/-- C9 counterexample: speech starts at t=5 and stops at t=10; the source's
`on_speech_end` leaves `last_speech_time` at 5 (the start time) rather than
recording 10, and `should_respond` at t=10.5 already returns true (5.5s
elapsed since start) where the spec's stop-time semantics would still return
false (0.5s of silence, below the 0.8s threshold). -/
theorem C9_counterexample :
    (TurnDetector.on_speech_end
      (TurnDetector.on_speech_start (initTurnDetector 0) 5)).last_speech_time = 5 ∧
    (on_speech_end_specVersion
      (TurnDetector.on_speech_start (initTurnDetector 0) 5) 10).last_speech_time = 10 ∧
    (5 : ℚ) ≠ 10 ∧
    TurnDetector.should_respond
      (TurnDetector.on_speech_end
        (TurnDetector.on_speech_start (initTurnDetector 0) 5)) (21/2) = true ∧
    TurnDetector.should_respond
      (on_speech_end_specVersion
        (TurnDetector.on_speech_start (initTurnDetector 0) 5) 10) (21/2) = false := by
  refine ⟨rfl, rfl, by norm_num, ?_, ?_⟩
  · simp [TurnDetector.should_respond, TurnDetector.scaled_threshold,
      TurnDetector.on_speech_end, TurnDetector.on_speech_start, initTurnDetector]
    norm_num
  · simp [TurnDetector.should_respond, TurnDetector.scaled_threshold,
      on_speech_end_specVersion, TurnDetector.on_speech_start, initTurnDetector]
    norm_num

/-- C9 (amended): every `on_speech_end` call sets `is_user_speaking` to false
and leaves `last_speech_time` unchanged — no stop timestamp is recorded — so
`should_respond` measures elapsed silence from the most recent
voice-activity-START time. -/
theorem C9_speech_end_no_timestamp (td : TurnDetector) (now start : ℚ) :
    (TurnDetector.on_speech_end td).is_user_speaking = false ∧
    (TurnDetector.on_speech_end td).last_speech_time = td.last_speech_time ∧
    (TurnDetector.on_speech_end (TurnDetector.on_speech_start td start)).should_respond now =
      decide (now - start > td.scaled_threshold) := by
  refine ⟨rfl, rfl, ?_⟩
  simp [TurnDetector.should_respond, TurnDetector.on_speech_end,
    TurnDetector.on_speech_start, TurnDetector.scaled_threshold]

/-- C10: the worker clears the stop flag immediately on dequeuing a task, so
the outcome of processing a task is entirely independent of the stop flag it
inherits — an interrupt raised against an earlier task or while idle never
cancels a later dequeued task. -/
theorem C10_stop_flag_cleared (env : WorkerEnv) (task : AudioTask)
    (s : TTSState) (b : Bool) :
    workerStep env task { s with should_stop := b } = workerStep env task s := by
  rfl

end RealtimeSTT
